import Mathlib

/-
Verification of the booking-status state machine and dual-write consistency
design of the guest-house booking portal (src/src/App.jsx).

The Firestore document store is embedded as two association lists keyed by
string document ids: the private `bookings` collection (keyed by the random
Firestore doc id) and the public `statusLookup` collection (keyed by the
application id).  A Firestore `writeBatch` is atomic, so a committed batch is
modelled as a single simultaneous update of both lists; a failed commit (the
`catch` branch in the code) leaves the store untouched.  Calendar dates are
embedded as naturals (the millisecond value `new Date(s).getTime()` of the
ISO date string held in the form), which preserves the order used by the
date comparison in `handleSubmit`.
-/

namespace GuestHouse

/-- Membership lookup in an association list with string keys, mirroring the
Firestore get-by-id read (`getDoc`). -/
def lookupAssoc {α : Type} : List (String × α) → String → Option α
  | [], _ => none
  | (k, v) :: rest, k0 => if k = k0 then some v else lookupAssoc rest k0

/-- Create-or-overwrite write, mirroring `batch.set` / `setDoc`. -/
def setAssoc {α : Type} : List (String × α) → String → α → List (String × α)
  | [], k0, v0 => [(k0, v0)]
  | (k, v) :: rest, k0, v0 =>
    if k = k0 then (k0, v0) :: rest else (k, v) :: setAssoc rest k0 v0

/-- Field-merge update of an existing document, mirroring `batch.update` /
`updateDoc` (which leaves all documents with other ids untouched and fails
when no document has the id — the existence check lives in the batch-commit
model below). -/
def updateAssoc {α : Type} : List (String × α) → String → (α → α) → List (String × α)
  | [], _, _ => []
  | (k, v) :: rest, k0, f =>
    if k = k0 then (k, f v) :: rest else (k, v) :: updateAssoc rest k0 f

/-- Private booking document, with exactly the fields written by
`handleSubmit` in `BookingForm` (the `data` object). -/
structure Booking where
  name : String
  email : String
  phone : String
  address : String
  idProof : String
  idNumber : String
  checkIn : Nat
  checkOut : Nat
  guestCount : Nat
  purpose : String
  status : String
  applicationId : String
  submittedAt : Nat
deriving DecidableEq

/-- Public status-lookup document: exactly the two fields written at
`artifacts/.../statusLookup/{applicationId}` by `handleSubmit`. -/
structure StatusLookup where
  status : String
  checkIn : Nat
deriving DecidableEq

/-- The two Firestore collections the core logic touches. -/
structure Store where
  bookings : List (String × Booking)
  statusLookup : List (String × StatusLookup)
deriving DecidableEq

/-- Payload passed to the notification dispatcher:
`\x7b name, applicationId, checkIn \x7d`. -/
structure EmailPayload where
  name : String
  applicationId : String
  checkIn : Nat
deriving DecidableEq

/-- One call to `sendEmailNotification(to, template, data)`; the `recipient`
field embeds the `to` argument. -/
structure EmailCall where
  recipient : String
  template : String
  payload : EmailPayload
deriving DecidableEq

/-- Digit characters produced by the JavaScript `Number.prototype.toString(36)`
conversion: 0-9 then lowercase a-z. -/
def b36digit (n : Nat) : Char :=
  if n < 10 then Char.ofNat (48 + n) else Char.ofNat (87 + n)

/-- Fuel-indexed base-36 digit expansion of a natural, most significant digit
first (the integer part of `toString(36)`). -/
def natToBase36Core : Nat → Nat → List Char → List Char
  | 0, _, acc => acc
  | fuel + 1, n, acc =>
    if n < 36 then b36digit n :: acc
    else natToBase36Core fuel (n / 36) (b36digit (n % 36) :: acc)

/-- Base-36 rendering of a natural number, as `n.toString(36)` renders a
nonnegative integer. -/
def natToBase36 (n : Nat) : List Char :=
  natToBase36Core (n + 1) n []

/-- JavaScript `s.slice(-4)`: the last four characters, or all of `s` when it
is shorter than four characters. -/
def jsSliceLast4 (l : List Char) : List Char :=
  l.drop (l.length - 4)

/-- JavaScript `s.slice(2, 7)`: at most five characters starting at index 2. -/
def jsSlice2to7 (l : List Char) : List Char :=
  (l.drop 2).take 5

/-- Embedding of `generateApplicationId` (App.jsx): `ts` is the millisecond
timestamp `new Date().getTime()` and `randChars` is the character sequence of
`Math.random().toString(36)` — a string of the form `0.` followed by the
base-36 fractional digits the runtime prints for the drawn double (for
example `0.5` prints as `0.i`).  The code takes the last four characters of
the base-36 timestamp, the five characters after the `0.` of the random
rendering, and uppercases `HPU-` ++ timestamp part ++ `-` ++ random part. -/
def generateApplicationId (ts : Nat) (randChars : List Char) : String :=
  String.mk ((("HPU-".data ++ jsSliceLast4 (natToBase36 ts))
    ++ ("-".data ++ jsSlice2to7 randChars)).map Char.toUpper)

/-- Character allowed at an `X` position of the spec pattern
`HPU-XXXX-XXXXX`: an uppercase base-36 digit, i.e. `0`-`9` or `A`-`Z`. -/
def isUpperB36 (c : Char) : Bool :=
  (48 ≤ c.toNat && c.toNat ≤ 57) || (65 ≤ c.toNat && c.toNat ≤ 90)

/-- Decides whether a string matches the spec pattern `HPU-XXXX-XXXXX`:
fourteen characters, the literal head `HPU-`, four base-36 characters, a
hyphen, and five base-36 characters. -/
def matchesHPUPattern (s : String) : Bool :=
  s.data.length == 14 && s.data.take 4 == ['H', 'P', 'U', '-']
    && ((s.data.drop 4).take 4).all isUpperB36
    && (s.data.drop 8).take 1 == ['-']
    && ((s.data.drop 9).all isUpperB36)

/-- Outcome of the `fetch` to `/api/sendEmail` inside
`sendEmailNotification`: a 2xx response, a non-ok response carrying the
parsed error message, or a rejected fetch (network/transport error). -/
inductive FetchOutcome where
  | ok
  | httpError (msg : String)
  | transportError (msg : String)
deriving DecidableEq

/-- The fallible part of the dispatch: the awaited `fetch` plus the
`if (!response.ok) throw new Error(...)` check.  An `Except.error` is a
raised JavaScript exception. -/
def emailFetch : FetchOutcome → Except String Unit
  | .ok => .ok ()
  | .httpError msg => .error msg
  | .transportError msg => .error msg

/-- Embedding of `sendEmailNotification` (App.jsx): the whole body sits in a
`try/catch` whose catch only logs, so the function returns console log lines
and has no error channel — every fetch outcome is absorbed. -/
def sendEmailNotification (outcome : FetchOutcome) : List String :=
  match emailFetch outcome with
  | .ok _ => ["Email sent successfully via serverless function."]
  | .error e => ["Failed to send email: " ++ e]

/-- Form fields of `BookingForm` after the coercions the code applies
(`parseInt(guestCount, 10)`, dates read as their `Date` values). -/
structure SubmitForm where
  name : String
  email : String
  phone : String
  address : String
  idProof : String
  idNumber : String
  checkIn : Nat
  checkOut : Nat
  guestCount : Nat
  purpose : String
deriving DecidableEq

/-- The `data` object built in `handleSubmit`: the form fields plus
`status = Pending`, the generated application id, and the submission time. -/
def mkBookingData (f : SubmitForm) (appId : String) (now : Nat) : Booking :=
  { name := f.name, email := f.email, phone := f.phone, address := f.address
    idProof := f.idProof, idNumber := f.idNumber
    checkIn := f.checkIn, checkOut := f.checkOut
    guestCount := f.guestCount, purpose := f.purpose
    status := "Pending", applicationId := appId, submittedAt := now }

/-- Result of a `handleSubmit` run: the store after the call, whether the
success banner was set, the banner/error message, the notification calls
dispatched, and the console log of the dispatcher. -/
structure SubmitResult where
  store : Store
  success : Bool
  message : String
  emails : List EmailCall
  emailLog : List String
deriving DecidableEq

/-- Store-and-message part of `BookingForm.handleSubmit` (App.jsx lines
596-670): reject when `new Date(checkOut) <= new Date(checkIn)`; otherwise
build `data`, and commit one `writeBatch` that sets the private booking
document and the public status-lookup document
`\x7b status: "Pending", checkIn \x7d`.  `commitOk` models whether the store
accepts the batch; a rejected batch throws, is caught, and leaves the store
exactly as it was. -/
def submitCore (f : SubmitForm) (docId appId : String) (now : Nat)
    (commitOk : Bool) (store : Store) : Store × Bool × String × List EmailCall :=
  if f.checkOut ≤ f.checkIn then
    (store, false, "Check-out date must be after check-in date.", [])
  else
    let data := mkBookingData f appId now
    if commitOk then
      ({ bookings := setAssoc store.bookings docId data
         statusLookup := setAssoc store.statusLookup appId
           { status := "Pending", checkIn := data.checkIn } },
       true,
       "Your application has been submitted! Your Application ID is: " ++ appId,
       [{ recipient := data.email, template := "booking_submitted"
          payload := { name := data.name, applicationId := data.applicationId
                       checkIn := data.checkIn } }])
    else
      (store, false, "Failed to submit application.", [])

/-- Full embedding of `BookingForm.handleSubmit`: the core plus the
post-commit fire-and-forget notification, whose fetch outcome feeds only the
console log. -/
def handleSubmit (f : SubmitForm) (docId appId : String) (now : Nat)
    (commitOk : Bool) (outcome : FetchOutcome) (store : Store) : SubmitResult :=
  let r := submitCore f docId appId now commitOk store
  { store := r.1, success := r.2.1, message := r.2.2.1, emails := r.2.2.2
    emailLog := if r.2.1 then sendEmailNotification outcome else [] }

/-- White-space test for the `trim()` applied to the search term (the ASCII
white-space characters; JavaScript also trims further Unicode space, which
no application id contains). -/
def isJsWhitespace (c : Char) : Bool :=
  c = ' ' || c = '\t' || c = '\n' || c = '\r'

/-- Embedding of `searchTerm.trim()`: strip leading and trailing
white-space. -/
def jsTrim (s : String) : String :=
  String.mk (((s.data.dropWhile isJsWhitespace).reverse.dropWhile isJsWhitespace).reverse)

/-- Result of the status search: the rendered record, the not-found message,
or the silent early return on an empty search box. -/
inductive SearchResult where
  | found (applicationId : String) (record : StatusLookup)
  | notFound (msg : String)
  | emptyQuery
deriving DecidableEq

/-- Embedding of `BookingStatus.handleSearch` (App.jsx lines 758-788): an
empty search term returns early; otherwise a single `getDoc` on the public
`statusLookup` collection at the trimmed search term, rendering the record
when it exists and a not-found message otherwise.  The private `bookings`
collection is never read. -/
def handleSearch (searchTerm : String) (store : Store) : SearchResult :=
  if searchTerm = "" then .emptyQuery
  else
    match lookupAssoc store.statusLookup (jsTrim searchTerm) with
    | some r => .found (jsTrim searchTerm) r
    | none =>
      .notFound
        "No booking found with that Application ID. Please check the ID and try again."

/-- One row of the admin dashboard snapshot: the Firestore document id
paired with the booking data (`\x7b id: doc.id, ...doc.data() \x7d`). -/
structure BookingRow where
  id : String
  data : Booking
deriving DecidableEq

/-- The atomic two-document batch of `handleStatusChange`: `batch.update` on
the private booking document and on the public status-lookup document, then
`batch.commit()`.  Firestore applies the batch atomically and `update` fails
on a missing document, so the commit yields the doubly-updated store exactly
when the store accepts the batch and both documents exist; otherwise it
throws and nothing is applied. -/
def batchUpdateStatus (store : Store) (docId appId newStatus : String)
    (commitOk : Bool) : Option Store :=
  if commitOk && (lookupAssoc store.bookings docId).isSome
      && (lookupAssoc store.statusLookup appId).isSome then
    some { bookings := updateAssoc store.bookings docId
             (fun b => { b with status := newStatus })
           statusLookup := updateAssoc store.statusLookup appId
             (fun s => { s with status := newStatus }) }
  else none

/-- Result of a `handleStatusChange` run: the store, the notification calls
dispatched, the dispatcher log, and the `console.error` log of the catch
branch. -/
structure TransitionResult where
  store : Store
  emails : List EmailCall
  emailLog : List String
  errorLog : List String
deriving DecidableEq

/-- Store-and-email part of `AdminDashboard.handleStatusChange` (App.jsx
lines 964-996): return silently when `newStatus` is empty or equals the
current status of the row; otherwise commit the two-document batch, then dispatch
the approved/rejected notification; a failed commit is caught and logged
with no store change and no notification. -/
def transitionCore (store : Store) (row : BookingRow) (newStatus : String)
    (commitOk : Bool) : Store × List EmailCall × List String :=
  if newStatus = "" || newStatus = row.data.status then (store, [], [])
  else
    match batchUpdateStatus store row.id row.data.applicationId newStatus commitOk with
    | some store1 =>
      (store1,
       [{ recipient := row.data.email
          template := if newStatus = "Approved" then "booking_approved"
                      else "booking_rejected"
          payload := { name := row.data.name
                       applicationId := row.data.applicationId
                       checkIn := row.data.checkIn } }],
       [])
    | none => (store, [], ["Failed to update status: "])

/-- Full embedding of `AdminDashboard.handleStatusChange`: the core plus the
post-commit notification, whose fetch outcome feeds only the console log. -/
def handleStatusChange (store : Store) (row : BookingRow) (newStatus : String)
    (commitOk : Bool) (outcome : FetchOutcome) : TransitionResult :=
  let r := transitionCore store row newStatus commitOk
  { store := r.1, emails := r.2.1
    emailLog := if r.2.1 = [] then [] else sendEmailNotification outcome
    errorLog := r.2.2 }

/-- Concrete form input used to exercise the flows (Scenario A of the spec,
with dates and times as their numeric embeddings). -/
def exForm : SubmitForm :=
  { name := "A. Singh", email := "a@x.com", phone := "9876543210"
    address := "Summer Hill, Shimla", idProof := "aadhar", idNumber := "1111"
    checkIn := 20250601, checkOut := 20250603, guestCount := 2
    purpose := "official" }

/-- Concrete pending booking built from the example form. -/
def exBookingPending : Booking := mkBookingData exForm "HPU-ZEO0-ABCDE" 100

/-- Store holding the pending booking and its paired status-lookup record. -/
def exStorePending : Store :=
  { bookings := [("doc1", exBookingPending)]
    statusLookup := [("HPU-ZEO0-ABCDE", { status := "Pending", checkIn := 20250601 })] }

/-- Dashboard row for the pending booking. -/
def exRowPending : BookingRow := { id := "doc1", data := exBookingPending }

/-- The example booking after approval. -/
def exBookingApproved : Booking := { exBookingPending with status := "Approved" }

/-- Store holding the approved booking and its paired status-lookup record. -/
def exStoreApproved : Store :=
  { bookings := [("doc1", exBookingApproved)]
    statusLookup := [("HPU-ZEO0-ABCDE", { status := "Approved", checkIn := 20250601 })] }

/-- Dashboard row for the approved booking. -/
def exRowApproved : BookingRow := { id := "doc1", data := exBookingApproved }

theorem lookupAssoc_setAssoc_self {α : Type} (l : List (String × α)) (k : String) (v : α) :
    lookupAssoc (setAssoc l k v) k = some v := by
  induction l with
  | nil => simp [setAssoc, lookupAssoc]
  | cons p rest ih =>
    obtain ⟨k1, v1⟩ := p
    by_cases h : k1 = k <;> simp [setAssoc, lookupAssoc, h, ih]

theorem lookupAssoc_setAssoc_ne {α : Type} (l : List (String × α)) (k k0 : String)
    (v : α) (h : k ≠ k0) : lookupAssoc (setAssoc l k v) k0 = lookupAssoc l k0 := by
  induction l with
  | nil => simp [setAssoc, lookupAssoc, h]
  | cons p rest ih =>
    obtain ⟨k1, v1⟩ := p
    by_cases h1 : k1 = k <;> simp [setAssoc, lookupAssoc, h, h1, ih]

theorem lookupAssoc_updateAssoc_self {α : Type} (l : List (String × α)) (k : String)
    (f : α → α) : lookupAssoc (updateAssoc l k f) k = (lookupAssoc l k).map f := by
  induction l with
  | nil => simp [updateAssoc, lookupAssoc]
  | cons p rest ih =>
    obtain ⟨k1, v1⟩ := p
    by_cases h : k1 = k <;> simp [updateAssoc, lookupAssoc, h, ih]

theorem lookupAssoc_updateAssoc_ne {α : Type} (l : List (String × α)) (k k0 : String)
    (f : α → α) (h : k ≠ k0) :
    lookupAssoc (updateAssoc l k f) k0 = lookupAssoc l k0 := by
  induction l with
  | nil => simp [updateAssoc, lookupAssoc]
  | cons p rest ih =>
    obtain ⟨k1, v1⟩ := p
    by_cases h1 : k1 = k <;> simp [updateAssoc, lookupAssoc, h, h1, ih]

theorem isSome_lookupAssoc_updateAssoc {α : Type} (l : List (String × α)) (k k0 : String)
    (f : α → α) :
    (lookupAssoc (updateAssoc l k f) k0).isSome = (lookupAssoc l k0).isSome := by
  by_cases h : k = k0
  · subst h
    rw [lookupAssoc_updateAssoc_self]
    cases lookupAssoc l k <;> simp
  · rw [lookupAssoc_updateAssoc_ne l k k0 f h]

theorem b36digit_toUpper_all : ∀ n < 36, isUpperB36 (b36digit n).toUpper = true := by
  decide

theorem natToBase36Core_upper (fuel : Nat) :
    ∀ (n : Nat) (acc : List Char),
      (∀ c ∈ acc, isUpperB36 c.toUpper = true) →
      ∀ c ∈ natToBase36Core fuel n acc, isUpperB36 c.toUpper = true := by
  induction fuel with
  | zero => intro n acc hacc c hc; exact hacc c hc
  | succ fuel ih =>
    intro n acc hacc c hc
    by_cases h : n < 36
    · simp only [natToBase36Core, if_pos h] at hc
      rcases List.mem_cons.mp hc with hc | hc
      · subst hc; exact b36digit_toUpper_all n h
      · exact hacc c hc
    · simp only [natToBase36Core, if_neg h] at hc
      refine ih (n / 36) (b36digit (n % 36) :: acc) ?_ c hc
      intro c1 hc1
      rcases List.mem_cons.mp hc1 with hc1 | hc1
      · subst hc1
        exact b36digit_toUpper_all (n % 36) (Nat.mod_lt n (by norm_num))
      · exact hacc c1 hc1

theorem natToBase36_upper (n : Nat) :
    ∀ c ∈ natToBase36 n, isUpperB36 c.toUpper = true :=
  natToBase36Core_upper (n + 1) n [] (by simp)

theorem length_four_eq {α : Type} (l : List α) (h : l.length = 4) :
    ∃ a b c d, l = [a, b, c, d] := by
  rcases l with _ | ⟨a, _ | ⟨b, _ | ⟨c, _ | ⟨d, _ | ⟨e, t⟩⟩⟩⟩⟩
  · simp at h
  · simp at h
  · simp at h
  · simp at h
  · exact ⟨a, b, c, d, rfl⟩
  · simp at h

theorem length_five_eq {α : Type} (l : List α) (h : l.length = 5) :
    ∃ a b c d e, l = [a, b, c, d, e] := by
  rcases l with _ | ⟨a, t⟩
  · simp at h
  · obtain ⟨b, c, d, e, rfl⟩ := length_four_eq t (by simpa using h)
    exact ⟨a, b, c, d, e, rfl⟩

theorem matchesHPUPattern_build (A B : List Char)
    (hA : A.length = 4) (hB : B.length = 5)
    (hAu : ∀ c ∈ A, isUpperB36 c = true) (hBu : ∀ c ∈ B, isUpperB36 c = true) :
    matchesHPUPattern (String.mk (['H', 'P', 'U', '-'] ++ A ++ ('-' :: B))) = true := by
  obtain ⟨a1, a2, a3, a4, rfl⟩ := length_four_eq A hA
  obtain ⟨b1, b2, b3, b4, b5, rfl⟩ := length_five_eq B hB
  simp only [matchesHPUPattern, List.cons_append, List.nil_append]
  simp_all [List.mem_cons]

/-- C8 (counterexample): the claim that every generated application id
matches `HPU-XXXX-XXXXX` fails.  `Math.random()` can return exactly `0.5`,
whose JavaScript base-36 rendering is the three-character string `0.i`
(`0.5 * 36 = 18`, digit `i`, remainder zero), so `slice(2, 7)` yields the
single character `i` and the id is the ten-character `HPU-ZEO0-I` — not of
the shape `HPU-XXXX-XXXXX`.  The timestamp is 2025-10-01T00:00:00Z in
milliseconds, whose base-36 rendering is `mg77zeo0`. -/
theorem application_id_pattern_cex :
    generateApplicationId 1759276800000 ("0.i".data) = "HPU-ZEO0-I"
    ∧ matchesHPUPattern "HPU-ZEO0-I" = false := by
  constructor <;> decide

/-- C8 (amended): every generated id is the uppercased `HPU-` tag, the last
four characters of the base-36 timestamp (four characters whenever the
timestamp has at least four base-36 digits, which holds for every real clock
value), a hyphen, and the first at-most-five fractional base-36 characters
of the random rendering; the pattern `HPU-XXXX-XXXXX` is matched whenever
the random rendering `0.…` carries at least five fractional digits. -/
theorem application_id_shape (ts : Nat) (randChars frac : List Char)
    (h4 : 4 ≤ (natToBase36 ts).length)
    (hr : randChars = '0' :: '.' :: frac)
    (h5 : 5 ≤ frac.length)
    (hf : ∀ c ∈ frac.take 5, isUpperB36 c.toUpper = true) :
    matchesHPUPattern (generateApplicationId ts randChars) = true := by
  subst hr
  have l1 : "HPU-".data.map Char.toUpper = ['H', 'P', 'U', '-'] := by decide
  have l2 : "-".data.map Char.toUpper = ['-'] := by decide
  have hid : generateApplicationId ts ('0' :: '.' :: frac)
      = String.mk (['H', 'P', 'U', '-']
          ++ (jsSliceLast4 (natToBase36 ts)).map Char.toUpper
          ++ ('-' :: (frac.take 5).map Char.toUpper)) := by
    simp [generateApplicationId, jsSlice2to7, List.map_append, l1, l2]
  rw [hid]
  apply matchesHPUPattern_build
  · simp only [List.length_map, jsSliceLast4, List.length_drop]
    omega
  · simp only [List.length_map, List.length_take]
    omega
  · intro c hc
    obtain ⟨c0, hc0, rfl⟩ := List.mem_map.mp hc
    exact natToBase36_upper ts c0 (List.mem_of_mem_drop hc0)
  · intro c hc
    obtain ⟨c0, hc0, rfl⟩ := List.mem_map.mp hc
    exact hf c0 hc0

/-- C8 (witness): the amended shape theorem applied at the concrete
timestamp 2025-10-01T00:00:00Z and random rendering `0.abcde7`. -/
theorem application_id_shape_witness :
    4 ≤ (natToBase36 1759276800000).length
    ∧ matchesHPUPattern (generateApplicationId 1759276800000 ("0.abcde7".data)) = true :=
  ⟨by decide,
   application_id_shape 1759276800000 ("0.abcde7".data) ("abcde7".data)
     (by decide) (by decide) (by decide) (by decide)⟩

/-- C1: a successful `handleSubmit` leaves the private booking record and the
public status-lookup record for the same application id both visible, the
lookup holding exactly `status = Pending` and the check-in of the booking and no
applicant field; a failed submit leaves the store exactly unchanged, so the
batched pair is all-or-nothing. -/
theorem submit_dual_write (f : SubmitForm) (docId appId : String) (now : Nat)
    (commitOk : Bool) (outcome : FetchOutcome) (store : Store) :
    ((handleSubmit f docId appId now commitOk outcome store).success = true →
      lookupAssoc (handleSubmit f docId appId now commitOk outcome store).store.bookings docId
          = some (mkBookingData f appId now)
      ∧ lookupAssoc (handleSubmit f docId appId now commitOk outcome store).store.statusLookup
          appId = some { status := "Pending", checkIn := f.checkIn }
      ∧ (mkBookingData f appId now).applicationId = appId
      ∧ (mkBookingData f appId now).status = "Pending")
    ∧ ((handleSubmit f docId appId now commitOk outcome store).success = false →
      (handleSubmit f docId appId now commitOk outcome store).store = store) := by
  by_cases hd : f.checkOut ≤ f.checkIn
  · constructor
    · intro h
      simp [handleSubmit, submitCore, hd] at h
    · intro _
      simp [handleSubmit, submitCore, hd]
  · cases commitOk with
    | false =>
      constructor
      · intro h
        simp [handleSubmit, submitCore, hd] at h
      · intro _
        simp [handleSubmit, submitCore, hd]
    | true =>
      constructor
      · intro _
        refine ⟨?_, ?_, rfl, rfl⟩ <;>
          simp [handleSubmit, submitCore, hd, lookupAssoc_setAssoc_self, mkBookingData]
      · intro h
        simp [handleSubmit, submitCore, hd] at h

/-- C1 (witness): the dual-write theorem applied to the example form on the
empty store with an accepted commit. -/
theorem submit_dual_write_witness :
    (handleSubmit exForm "doc1" "HPU-ZEO0-ABCDE" 100 true .ok
        { bookings := [], statusLookup := [] }).success = true
    ∧ lookupAssoc (handleSubmit exForm "doc1" "HPU-ZEO0-ABCDE" 100 true .ok
        { bookings := [], statusLookup := [] }).store.bookings "doc1"
        = some (mkBookingData exForm "HPU-ZEO0-ABCDE" 100)
    ∧ lookupAssoc (handleSubmit exForm "doc1" "HPU-ZEO0-ABCDE" 100 true .ok
        { bookings := [], statusLookup := [] }).store.statusLookup "HPU-ZEO0-ABCDE"
        = some { status := "Pending", checkIn := exForm.checkIn }
    ∧ (mkBookingData exForm "HPU-ZEO0-ABCDE" 100).applicationId = "HPU-ZEO0-ABCDE"
    ∧ (mkBookingData exForm "HPU-ZEO0-ABCDE" 100).status = "Pending" :=
  ⟨by decide,
   (submit_dual_write exForm "doc1" "HPU-ZEO0-ABCDE" 100 true .ok
     { bookings := [], statusLookup := [] }).1 (by decide)⟩

/-- C5: whenever the check-out date of the form is at or before its check-in
date, `handleSubmit` returns the validation error message with the store
exactly as it was and nothing dispatched — no store write happens. -/
theorem submit_rejects_bad_dates (f : SubmitForm) (docId appId : String) (now : Nat)
    (commitOk : Bool) (outcome : FetchOutcome) (store : Store)
    (h : f.checkOut ≤ f.checkIn) :
    handleSubmit f docId appId now commitOk outcome store
      = { store := store, success := false
          message := "Check-out date must be after check-in date."
          emails := [], emailLog := [] } := by
  simp [handleSubmit, submitCore, h]

/-- C5 (witness): the date-validation theorem applied to the example form
with the two dates swapped, on a nonempty store. -/
theorem submit_rejects_bad_dates_witness :
    exForm.checkIn ≤ exForm.checkOut
    ∧ handleSubmit { exForm with checkIn := 20250603, checkOut := 20250601 }
        "doc2" "HPU-AAAA-BBBBB" 200 true .ok exStorePending
      = { store := exStorePending, success := false
          message := "Check-out date must be after check-in date."
          emails := [], emailLog := [] } :=
  ⟨by decide,
   submit_rejects_bad_dates { exForm with checkIn := 20250603, checkOut := 20250601 }
     "doc2" "HPU-AAAA-BBBBB" 200 true .ok exStorePending (by decide)⟩

/-- C2: for an existing booking whose snapshot row matches the store and
whose lookup record agrees with it (the quiescent pairing invariant), a
transition to a valid target leaves both the private record and the public
record reporting the new status when the batch commits, and leaves the store
exactly unchanged when the batch is rejected — the two updates are
all-or-nothing. -/
theorem transition_updates_both (store : Store) (row : BookingRow)
    (newStatus : String) (s : StatusLookup) (outcome : FetchOutcome)
    (hb : lookupAssoc store.bookings row.id = some row.data)
    (hs : lookupAssoc store.statusLookup row.data.applicationId = some s)
    (hpair : s.status = row.data.status)
    (hv : newStatus = "Approved" ∨ newStatus = "Rejected") :
    ∀ commitOk : Bool,
      (commitOk = true →
        (lookupAssoc (handleStatusChange store row newStatus commitOk outcome).store.bookings
            row.id).map Booking.status = some newStatus
        ∧ (lookupAssoc
            (handleStatusChange store row newStatus commitOk outcome).store.statusLookup
            row.data.applicationId).map StatusLookup.status = some newStatus)
      ∧ (commitOk = false →
        (handleStatusChange store row newStatus commitOk outcome).store = store) := by
  intro commitOk
  have hne : ¬ newStatus = "" := by
    rcases hv with h | h <;> simp [h]
  by_cases hsame : newStatus = row.data.status
  · refine ⟨fun _ => ?_, fun _ => ?_⟩
    · constructor
      · simp [handleStatusChange, transitionCore, hne, hsame, hb]
      · simp [handleStatusChange, transitionCore, hne, hsame, hs, hpair]
    · simp [handleStatusChange, transitionCore, hne, hsame]
  · refine ⟨fun hok => ?_, fun hok => ?_⟩
    · subst hok
      constructor
      · simp [handleStatusChange, transitionCore, hne, hsame, batchUpdateStatus,
              hb, hs, lookupAssoc_updateAssoc_self]
      · simp [handleStatusChange, transitionCore, hne, hsame, batchUpdateStatus,
              hb, hs, lookupAssoc_updateAssoc_self]
    · subst hok
      simp [handleStatusChange, transitionCore, hne, hsame, batchUpdateStatus]

/-- C2 (witness): the transition theorem applied to the pending example
booking, approved with an accepted commit. -/
theorem transition_updates_both_witness :
    lookupAssoc exStorePending.bookings exRowPending.id = some exRowPending.data
    ∧ (lookupAssoc (handleStatusChange exStorePending exRowPending "Approved" true
          .ok).store.bookings exRowPending.id).map Booking.status = some "Approved"
    ∧ (lookupAssoc (handleStatusChange exStorePending exRowPending "Approved" true
          .ok).store.statusLookup exRowPending.data.applicationId).map
        StatusLookup.status = some "Approved" :=
  ⟨by decide,
   ((transition_updates_both exStorePending exRowPending "Approved"
       { status := "Pending", checkIn := 20250601 } .ok
       (by decide) (by decide) (by decide) (Or.inl rfl) true).1 rfl).1,
   ((transition_updates_both exStorePending exRowPending "Approved"
       { status := "Pending", checkIn := 20250601 } .ok
       (by decide) (by decide) (by decide) (Or.inl rfl) true).1 rfl).2⟩

/-- C3 (counterexample): the claim that a transition to Rejected without a
reason fails with a validation error is false.  `handleStatusChange` takes
no reason argument at all: rejecting the pending example booking with no
reason succeeds — the private record becomes Rejected with every other field
untouched (in particular no rejection reason is recorded anywhere; the
document shape written by the code has no such field), the public record
becomes Rejected, and no error is raised. -/
theorem reject_without_reason_cex :
    lookupAssoc (handleStatusChange exStorePending exRowPending "Rejected" true
        .ok).store.bookings "doc1" = some { exBookingPending with status := "Rejected" }
    ∧ lookupAssoc (handleStatusChange exStorePending exRowPending "Rejected" true
        .ok).store.statusLookup "HPU-ZEO0-ABCDE"
        = some { status := "Rejected", checkIn := 20250601 }
    ∧ (handleStatusChange exStorePending exRowPending "Rejected" true .ok).errorLog = [] := by
  refine ⟨?_, ?_, ?_⟩ <;> decide

/-- C3 (amended): a transition to Rejected neither requires nor accepts a
reason: given the record pair exists and the batch commits, it always
succeeds, the private booking record changes only its status field (no
rejection reason is stored on either record — the document shapes carry no
such field), and no error is logged. -/
theorem reject_without_reason_succeeds (store : Store) (row : BookingRow)
    (s : StatusLookup) (outcome : FetchOutcome)
    (hb : lookupAssoc store.bookings row.id = some row.data)
    (hs : lookupAssoc store.statusLookup row.data.applicationId = some s)
    (hne : row.data.status ≠ "Rejected") :
    lookupAssoc (handleStatusChange store row "Rejected" true outcome).store.bookings row.id
        = some { row.data with status := "Rejected" }
    ∧ lookupAssoc (handleStatusChange store row "Rejected" true outcome).store.statusLookup
        row.data.applicationId = some { s with status := "Rejected" }
    ∧ (handleStatusChange store row "Rejected" true outcome).errorLog = [] := by
  have hne2 : ¬ ("Rejected" : String) = row.data.status := fun h => hne h.symm
  refine ⟨?_, ?_, ?_⟩ <;>
    simp [handleStatusChange, transitionCore, hne2, batchUpdateStatus, hb, hs,
          lookupAssoc_updateAssoc_self]

/-- C3 (witness): the amended theorem applied to the pending example
booking. -/
theorem reject_without_reason_succeeds_witness :
    exRowPending.data.status = "Pending"
    ∧ lookupAssoc (handleStatusChange exStorePending exRowPending "Rejected" true
        (.transportError "down")).store.bookings exRowPending.id
        = some { exRowPending.data with status := "Rejected" }
    ∧ lookupAssoc (handleStatusChange exStorePending exRowPending "Rejected" true
        (.transportError "down")).store.statusLookup exRowPending.data.applicationId
        = some { status := "Rejected", checkIn := 20250601 }
    ∧ (handleStatusChange exStorePending exRowPending "Rejected" true
        (.transportError "down")).errorLog = [] := by
  refine ⟨by decide, ?_⟩
  exact reject_without_reason_succeeds exStorePending exRowPending
    { status := "Pending", checkIn := 20250601 } (.transportError "down")
    (by decide) (by decide) (by decide)

/-- C4 (counterexample): the claim that no offered status-change operation
returns an Approved or Rejected booking to Pending is false.  The dashboard
dropdown offers Pending as a target, and `handleStatusChange` only blocks an
empty or unchanged target: selecting Pending for the approved example
booking commits, and both records report Pending again. -/
theorem approved_to_pending_cex :
    exRowApproved.data.status = "Approved"
    ∧ (lookupAssoc (handleStatusChange exStoreApproved exRowApproved "Pending" true
        .ok).store.bookings "doc1").map Booking.status = some "Pending"
    ∧ (lookupAssoc (handleStatusChange exStoreApproved exRowApproved "Pending" true
        .ok).store.statusLookup "HPU-ZEO0-ABCDE").map StatusLookup.status
        = some "Pending" := by
  refine ⟨?_, ?_, ?_⟩ <;> decide

/-- C4 (amended): the transition guard blocks only an empty target or one
equal to the current status of the row; Pending is an accepted target, so for any
booking whose current status is not Pending (in particular Approved or
Rejected), choosing Pending commits and sets both records back to Pending —
Approved and Rejected are not terminal. -/
theorem transition_back_to_pending (store : Store) (row : BookingRow)
    (s : StatusLookup) (outcome : FetchOutcome)
    (hb : lookupAssoc store.bookings row.id = some row.data)
    (hs : lookupAssoc store.statusLookup row.data.applicationId = some s)
    (hne : row.data.status ≠ "Pending") :
    (lookupAssoc (handleStatusChange store row "Pending" true outcome).store.bookings
        row.id).map Booking.status = some "Pending"
    ∧ (lookupAssoc (handleStatusChange store row "Pending" true outcome).store.statusLookup
        row.data.applicationId).map StatusLookup.status = some "Pending" := by
  have hne2 : ¬ ("Pending" : String) = row.data.status := fun h => hne h.symm
  constructor <;>
    simp [handleStatusChange, transitionCore, hne2, batchUpdateStatus, hb, hs,
          lookupAssoc_updateAssoc_self]

/-- C4 (witness): the amended theorem applied to the approved example
booking. -/
theorem transition_back_to_pending_witness :
    exRowApproved.data.status ≠ "Pending"
    ∧ (lookupAssoc (handleStatusChange exStoreApproved exRowApproved "Pending" true
        .ok).store.bookings exRowApproved.id).map Booking.status = some "Pending"
    ∧ (lookupAssoc (handleStatusChange exStoreApproved exRowApproved "Pending" true
        .ok).store.statusLookup exRowApproved.data.applicationId).map
        StatusLookup.status = some "Pending" :=
  ⟨by decide,
   (transition_back_to_pending exStoreApproved exRowApproved
     { status := "Approved", checkIn := 20250601 } .ok
     (by decide) (by decide) (by decide)).1,
   (transition_back_to_pending exStoreApproved exRowApproved
     { status := "Approved", checkIn := 20250601 } .ok
     (by decide) (by decide) (by decide)).2⟩

/-- C6: the status search depends only on the public status-lookup
collection (two stores with equal status-lookup collections produce
identical results, whatever their private bookings hold), succeeds exactly
on an exact match of the trimmed identifier, and renders a missing record as
the not-found message value — a normal result, not a raised fault. -/
theorem lookup_public_exact (q : String) (store : Store) :
    (∀ store2 : Store, store.statusLookup = store2.statusLookup →
      handleSearch q store = handleSearch q store2)
    ∧ (q ≠ "" → ∀ r : StatusLookup,
        lookupAssoc store.statusLookup (jsTrim q) = some r →
        handleSearch q store = .found (jsTrim q) r)
    ∧ (q ≠ "" → lookupAssoc store.statusLookup (jsTrim q) = none →
        handleSearch q store = .notFound
          "No booking found with that Application ID. Please check the ID and try again.") := by
  refine ⟨?_, ?_, ?_⟩
  · intro st2 hst
    simp [handleSearch, hst]
  · intro hq r hr
    simp [handleSearch, hq, hr]
  · intro hq hr
    simp [handleSearch, hq, hr]

/-- C6 (witness): the lookup theorem applied to the pending example store,
on its application id and on a nonexistent id. -/
theorem lookup_public_exact_witness :
    handleSearch "HPU-ZEO0-ABCDE" exStorePending
        = handleSearch "HPU-ZEO0-ABCDE"
            { bookings := [], statusLookup := exStorePending.statusLookup }
    ∧ handleSearch "HPU-ZEO0-ABCDE" exStorePending
        = .found (jsTrim "HPU-ZEO0-ABCDE") { status := "Pending", checkIn := 20250601 }
    ∧ handleSearch "NONEXISTENT-ID" exStorePending
        = .notFound
          "No booking found with that Application ID. Please check the ID and try again." :=
  ⟨(lookup_public_exact "HPU-ZEO0-ABCDE" exStorePending).1
      { bookings := [], statusLookup := exStorePending.statusLookup } rfl,
   (lookup_public_exact "HPU-ZEO0-ABCDE" exStorePending).2.1 (by decide)
      { status := "Pending", checkIn := 20250601 } (by decide),
   (lookup_public_exact "NONEXISTENT-ID" exStorePending).2.2 (by decide) (by decide)⟩

/-- C7: the committed result of a submit or a transition is unaffected by
the notification outcome — the store, banner, message and dispatched calls
are identical across any two fetch outcomes — and a failing dispatch is
absorbed inside `sendEmailNotification`, which returns only the failure log
line (no error channel reaches the caller). -/
theorem notification_isolated (f : SubmitForm) (docId appId : String) (now : Nat)
    (commitOk : Bool) (store : Store) (o o2 : FetchOutcome)
    (row : BookingRow) (newStatus : String) :
    (handleSubmit f docId appId now commitOk o store).store
        = (handleSubmit f docId appId now commitOk o2 store).store
    ∧ (handleSubmit f docId appId now commitOk o store).success
        = (handleSubmit f docId appId now commitOk o2 store).success
    ∧ (handleSubmit f docId appId now commitOk o store).message
        = (handleSubmit f docId appId now commitOk o2 store).message
    ∧ (handleSubmit f docId appId now commitOk o store).emails
        = (handleSubmit f docId appId now commitOk o2 store).emails
    ∧ (handleStatusChange store row newStatus commitOk o).store
        = (handleStatusChange store row newStatus commitOk o2).store
    ∧ (handleStatusChange store row newStatus commitOk o).emails
        = (handleStatusChange store row newStatus commitOk o2).emails
    ∧ (handleStatusChange store row newStatus commitOk o).errorLog
        = (handleStatusChange store row newStatus commitOk o2).errorLog
    ∧ (∀ e, emailFetch o = .error e →
        sendEmailNotification o = ["Failed to send email: " ++ e]) := by
  refine ⟨rfl, rfl, rfl, rfl, rfl, rfl, rfl, ?_⟩
  intro e he
  cases o <;> simp_all [emailFetch, sendEmailNotification]

/-- C7 (witness): the isolation theorem applied to the example submit with a
transport failure versus a success, and a rejecting transition. -/
theorem notification_isolated_witness :
    (handleSubmit exForm "doc1" "HPU-ZEO0-ABCDE" 100 true (.transportError "down")
        { bookings := [], statusLookup := [] }).store
      = (handleSubmit exForm "doc1" "HPU-ZEO0-ABCDE" 100 true .ok
        { bookings := [], statusLookup := [] }).store
    ∧ emailFetch (.transportError "down") = .error "down"
    ∧ sendEmailNotification (.transportError "down")
        = ["Failed to send email: " ++ "down"] :=
  ⟨(notification_isolated exForm "doc1" "HPU-ZEO0-ABCDE" 100 true
      { bookings := [], statusLookup := [] } (.transportError "down") .ok
      exRowPending "Rejected").1,
   rfl,
   (notification_isolated exForm "doc1" "HPU-ZEO0-ABCDE" 100 true
      { bookings := [], statusLookup := [] } (.transportError "down") .ok
      exRowPending "Rejected").2.2.2.2.2.2.2 "down" rfl⟩

/-- C9 (frame): whatever a status change does, documents with other keys are
untouched, the two targeted documents either keep their old value or change
only their status field (every applicant field, the dates, the guest count,
the purpose, the application id, the submission time and the public
record check-in are preserved), and no document is created or deleted. -/
theorem transition_frame (store : Store) (row : BookingRow) (newStatus : String)
    (commitOk : Bool) (outcome : FetchOutcome) :
    (∀ k, k ≠ row.id →
      lookupAssoc (handleStatusChange store row newStatus commitOk outcome).store.bookings k
        = lookupAssoc store.bookings k)
    ∧ (∀ k, k ≠ row.data.applicationId →
      lookupAssoc (handleStatusChange store row newStatus commitOk outcome).store.statusLookup
          k = lookupAssoc store.statusLookup k)
    ∧ (∀ b, lookupAssoc store.bookings row.id = some b →
      lookupAssoc (handleStatusChange store row newStatus commitOk outcome).store.bookings
          row.id = some b
      ∨ lookupAssoc (handleStatusChange store row newStatus commitOk outcome).store.bookings
          row.id = some { b with status := newStatus })
    ∧ (∀ s, lookupAssoc store.statusLookup row.data.applicationId = some s →
      lookupAssoc (handleStatusChange store row newStatus commitOk outcome).store.statusLookup
          row.data.applicationId = some s
      ∨ lookupAssoc (handleStatusChange store row newStatus commitOk outcome).store.statusLookup
          row.data.applicationId = some { s with status := newStatus })
    ∧ (∀ k,
      (lookupAssoc (handleStatusChange store row newStatus commitOk outcome).store.bookings
          k).isSome = (lookupAssoc store.bookings k).isSome)
    ∧ (∀ k,
      (lookupAssoc (handleStatusChange store row newStatus commitOk outcome).store.statusLookup
          k).isSome = (lookupAssoc store.statusLookup k).isSome) := by
  have hst : (handleStatusChange store row newStatus commitOk outcome).store = store
      ∨ (handleStatusChange store row newStatus commitOk outcome).store
        = { bookings := updateAssoc store.bookings row.id
              (fun b => { b with status := newStatus })
            statusLookup := updateAssoc store.statusLookup row.data.applicationId
              (fun s => { s with status := newStatus }) } := by
    by_cases h1 : newStatus = ""
    · left; simp [handleStatusChange, transitionCore, h1]
    · by_cases h2 : newStatus = row.data.status
      · left; simp [handleStatusChange, transitionCore, h2]
      · by_cases h3 : (commitOk && (lookupAssoc store.bookings row.id).isSome
            && (lookupAssoc store.statusLookup row.data.applicationId).isSome) = true
        · right
          simp [handleStatusChange, transitionCore, batchUpdateStatus, h1, h2, h3]
        · left
          simp only [Bool.not_eq_true] at h3
          simp [handleStatusChange, transitionCore, batchUpdateStatus, h1, h2, h3]
  rcases hst with hst | hst <;> rw [hst]
  · exact ⟨fun k _ => rfl, fun k _ => rfl, fun b hb => Or.inl hb, fun s hs => Or.inl hs,
      fun k => rfl, fun k => rfl⟩
  · refine ⟨?_, ?_, ?_, ?_, ?_, ?_⟩
    · intro k hk
      exact lookupAssoc_updateAssoc_ne store.bookings row.id k _ (fun h => hk h.symm)
    · intro k hk
      exact lookupAssoc_updateAssoc_ne store.statusLookup row.data.applicationId k _
        (fun h => hk h.symm)
    · intro b hb
      right
      rw [lookupAssoc_updateAssoc_self, hb]
      rfl
    · intro s hs
      right
      rw [lookupAssoc_updateAssoc_self, hs]
      rfl
    · intro k
      exact isSome_lookupAssoc_updateAssoc store.bookings row.id k _
    · intro k
      exact isSome_lookupAssoc_updateAssoc store.statusLookup row.data.applicationId k _

/-- C9 (witness): the frame theorem applied to approving the pending example
booking: an unrelated key is untouched, the targeted booking changes at most
its status, and the targeted document survives. -/
theorem transition_frame_witness :
    lookupAssoc (handleStatusChange exStorePending exRowPending "Approved" true
        .ok).store.bookings "other" = lookupAssoc exStorePending.bookings "other"
    ∧ (lookupAssoc (handleStatusChange exStorePending exRowPending "Approved" true
        .ok).store.bookings "doc1" = some exBookingPending
      ∨ lookupAssoc (handleStatusChange exStorePending exRowPending "Approved" true
        .ok).store.bookings "doc1" = some { exBookingPending with status := "Approved" })
    ∧ (lookupAssoc (handleStatusChange exStorePending exRowPending "Approved" true
        .ok).store.bookings "doc1").isSome
      = (lookupAssoc exStorePending.bookings "doc1").isSome :=
  ⟨(transition_frame exStorePending exRowPending "Approved" true .ok).1 "other" (by decide),
   (transition_frame exStorePending exRowPending "Approved" true .ok).2.2.1
     exBookingPending (by decide),
   (transition_frame exStorePending exRowPending "Approved" true .ok).2.2.2.2.1 "doc1"⟩

/-- C10: a status change whose target is empty or equals the current row
status is a complete no-op: the store is unchanged, no notification is
dispatched, and nothing is logged — repeating the current status is
idempotent and silent. -/
theorem transition_noop (store : Store) (row : BookingRow) (newStatus : String)
    (commitOk : Bool) (outcome : FetchOutcome)
    (h : newStatus = "" ∨ newStatus = row.data.status) :
    handleStatusChange store row newStatus commitOk outcome
      = { store := store, emails := [], emailLog := [], errorLog := [] } := by
  rcases h with h | h <;> simp [handleStatusChange, transitionCore, h]

/-- C10 (witness): the no-op theorem applied to re-selecting Pending on the
pending example booking and to an empty target. -/
theorem transition_noop_witness :
    exRowPending.data.status = "Pending"
    ∧ handleStatusChange exStorePending exRowPending "Pending" true .ok
        = { store := exStorePending, emails := [], emailLog := [], errorLog := [] }
    ∧ handleStatusChange exStorePending exRowPending "" true .ok
        = { store := exStorePending, emails := [], emailLog := [], errorLog := [] } :=
  ⟨by decide,
   transition_noop exStorePending exRowPending "Pending" true .ok (Or.inr (by decide)),
   transition_noop exStorePending exRowPending "" true .ok (Or.inl rfl)⟩

end GuestHouse
